import Mathlib

/-!
Shallow embedding of `object_detection/eval.py` (mtl-ssl repository).

The script resolves an evaluation configuration from command-line flags via one
of three strategies, derives an output directory, counts input records, loads a
label map, and dispatches to an external evaluator; a multi-label driver can run
it once per comma-separated label.  File-system reads, directory creation and
the external-evaluator call are modelled as an event trace; the single
`assert FLAGS.checkpoint_dir` and the `max()` call on an empty sequence are the
only internal failure points, modelled with `Except`.
-/

namespace MtlSslEval

/-- One entry of a label map: an integer class id and a display name. -/
structure LabelMapItem where
  id : Nat
  name : String
deriving Repr, DecidableEq

/-- A label map, as loaded by `label_map_util.load_labelmap`: a list of items. -/
structure LabelMap where
  item : List LabelMapItem
deriving Repr, DecidableEq

/-- A category passed to the evaluator: an id/name pair. -/
structure Category where
  id : Nat
  name : String
deriving Repr, DecidableEq

/-- A `model_pb2.DetectionModel` configuration, opaque to this script. -/
structure ModelConfig where
  raw : String
deriving Repr, DecidableEq

/-- An `eval_pb2.EvalConfig` configuration, opaque to this script. -/
structure EvalConfig where
  raw : String
deriving Repr, DecidableEq

/-- An `input_reader_pb2.InputReader` configuration; the script reads its
`tf_record_input_reader.input_path` and `label_map_path` fields. -/
structure InputReader where
  input_path : String
  label_map_path : String
deriving Repr, DecidableEq

/-- A `pipeline_pb2.TrainEvalPipelineConfig`: model, eval config and the two
input readers. -/
structure PipelineConfig where
  model : ModelConfig
  eval_config : EvalConfig
  train_input_reader : InputReader
  eval_input_reader : InputReader
deriving Repr, DecidableEq

/-- The command-line flags of `eval.py` (the `gpu_fraction` float flag is passed
through to the external evaluator unread and is omitted). -/
structure Flags where
  eval_training_data : Bool
  checkpoint_dir : String
  eval_dir : String
  pipeline_config_path : String
  eval_config_path : String
  input_config_path : String
  model_config_path : String
  eval_tag : String
  eval_label : String
deriving Repr, DecidableEq

/-- A wall-clock instant, as read by `time.strftime`. -/
structure DateTime where
  year : Nat
  month : Nat
  day : Nat
  hour : Nat
  minute : Nat
  second : Nat
deriving Repr, DecidableEq

/-- The environment the script runs in: parsed contents of configuration files
at each path, record payloads (abstracted to `Nat`) of each data file, the label
map at each path, which directories exist, and the current time. -/
structure World where
  pipelineAt : String → PipelineConfig
  evalConfigAt : String → EvalConfig
  modelConfigAt : String → ModelConfig
  inputConfigAt : String → InputReader
  labelMapAt : String → LabelMap
  records : String → List Nat
  dirExists : String → Bool
  now : DateTime

/-- Observable side effects of a run, in program order. -/
inductive Event
  | openFile (path : String)
  | mkdirP (path : String)
  | countRecords (path : String)
  | loadLabelMap (path : String)
  | resetDefaultGraph
  | evaluate (checkpoint_dir eval_dir : String) (numExamples : Nat)
      (categories : List Category) (maxEvals : Option Nat)
deriving Repr, DecidableEq

/-- Unhandled Python exceptions that this script itself can raise. -/
inductive Failure
  | assertionError (msg : String)
  | valueError (msg : String)
deriving Repr, DecidableEq

/-- `os.path.join` for two components (posixpath semantics). -/
def osPathJoin (a b : String) : String :=
  if b.startsWith "/" then b
  else if a = "" || a.endsWith "/" then a ++ b
  else a ++ "/" ++ b

/-- Zero-pad a number to two digits, as `%m`, `%d`, `%H`, `%M`, `%S` do. -/
def pad2 (n : Nat) : String :=
  if n < 10 then "0" ++ toString n else toString n

/-- Zero-pad a number to four digits, as `%Y` does. -/
def pad4 (n : Nat) : String :=
  if n < 10 then "000" ++ toString n
  else if n < 100 then "00" ++ toString n
  else if n < 1000 then "0" ++ toString n
  else toString n

/-- `time.strftime("%Y%m%d-%H%M%S")`: the date digits, a dash, the time digits. -/
def strftimeTag (t : DateTime) : String :=
  pad4 t.year ++ pad2 t.month ++ pad2 t.day ++ "-" ++
    pad2 t.hour ++ pad2 t.minute ++ pad2 t.second

/-- Modelled from the spec: `utils.mkdir_p` (from `global_utils.custom_utils`,
which is part of the repository but not under src/) creates the directory
idempotently — a pre-existing directory is not an error — and returns its path. -/
def mkdir_p (path : String) : String := path

/-- `str.split(',')` of Python, written structurally on the character list. -/
def splitCommaAux : List Char → List Char → List String
  | [], acc => [String.mk acc.reverse]
  | c :: cs, acc =>
    if c = ',' then String.mk acc.reverse :: splitCommaAux cs []
    else splitCommaAux cs (c :: acc)

/-- `FLAGS.eval_label.split(',')`. -/
def pySplitComma (s : String) : List String :=
  splitCommaAux s.data []

/-- `get_configs_from_pipeline_file`: parse the single pipeline file and select
the training or evaluation input reader by the `eval_training_data` flag. -/
def get_configs_from_pipeline_file (f : Flags) (w : World) :
    List Event × ModelConfig × EvalConfig × InputReader :=
  let pipeline_config := w.pipelineAt f.pipeline_config_path
  ([Event.openFile f.pipeline_config_path],
   pipeline_config.model, pipeline_config.eval_config,
   if f.eval_training_data then pipeline_config.train_input_reader
   else pipeline_config.eval_input_reader)

/-- `get_configs_from_multiple_files`: parse the eval, model and input files
named by their three separate path flags, in that order. -/
def get_configs_from_multiple_files (f : Flags) (w : World) :
    List Event × ModelConfig × EvalConfig × InputReader :=
  ([Event.openFile f.eval_config_path, Event.openFile f.model_config_path,
    Event.openFile f.input_config_path],
   w.modelConfigAt f.model_config_path, w.evalConfigAt f.eval_config_path,
   w.inputConfigAt f.input_config_path)

/-- `get_configs_from_checkpoint_dir`: join the checkpoint directory with the
fixed filenames `eval.config`, `model.config` and `train_input.config` or
`eval_input.config` (by the `eval_training_data` flag) and parse each. -/
def get_configs_from_checkpoint_dir (f : Flags) (w : World) :
    List Event × ModelConfig × EvalConfig × InputReader :=
  let eval_config_path := osPathJoin f.checkpoint_dir "eval.config"
  let model_config_path := osPathJoin f.checkpoint_dir "model.config"
  let input_config_path :=
    if f.eval_training_data then osPathJoin f.checkpoint_dir "train_input.config"
    else osPathJoin f.checkpoint_dir "eval_input.config"
  ([Event.openFile eval_config_path, Event.openFile model_config_path,
    Event.openFile input_config_path],
   w.modelConfigAt model_config_path, w.evalConfigAt eval_config_path,
   w.inputConfigAt input_config_path)

/-- Lines 176–182 of `eval.py`: when `eval_label` is non-empty,
`pipeline_config_path` and `checkpoint_dir` are filled in only if empty, while
`eval_dir` and `eval_tag` are overwritten unconditionally. -/
def applyEvalLabelDefault (f : Flags) : Flags :=
  if f.eval_label ≠ "" then
    { f with
      pipeline_config_path :=
        if f.pipeline_config_path = "" then
          "../configs/test/" ++ f.eval_label ++ ".config"
        else f.pipeline_config_path,
      checkpoint_dir :=
        if f.checkpoint_dir = "" then "../checkpoints/train/" ++ f.eval_label
        else f.checkpoint_dir,
      eval_dir := "../checkpoints/eval/" ++ f.eval_label,
      eval_tag := f.eval_label }
  else f

/-- The three configuration strategies. -/
inductive Strategy
  | pipelineFile
  | multipleFiles
  | checkpointDir
deriving Repr, DecidableEq

/-- Which strategy the `if/elif/else` of lines 186–191 selects. -/
def strategyOf (f : Flags) : Strategy :=
  if f.pipeline_config_path ≠ "" then Strategy.pipelineFile
  else if f.eval_config_path ≠ "" then Strategy.multipleFiles
  else Strategy.checkpointDir

/-- Lines 186–191 of `eval.py`: the configuration resolution `if/elif/else`. -/
def resolveConfigs (f : Flags) (w : World) :
    List Event × ModelConfig × EvalConfig × InputReader :=
  if f.pipeline_config_path ≠ "" then get_configs_from_pipeline_file f w
  else if f.eval_config_path ≠ "" then get_configs_from_multiple_files f w
  else get_configs_from_checkpoint_dir f w

/-- Lines 193–196 of `eval.py`: when `eval_dir` is empty, default `eval_tag` to
a timestamp if it is empty, then create `<checkpoint_dir>_eval_<tag>` and store
its path in `eval_dir`. -/
def derive_eval_dir (f : Flags) (w : World) : List Event × Flags :=
  if f.eval_dir = "" then
    let tag := if f.eval_tag = "" then strftimeTag w.now else f.eval_tag
    let path := f.checkpoint_dir ++ "_eval_" ++ tag
    ([Event.mkdirP path], { f with eval_tag := tag, eval_dir := mkdir_p path })
  else ([], f)

/-- `sum(1 for _ in ...)`: one unit per record, contents unread. -/
def countList (rs : List Nat) : Nat :=
  rs.foldl (fun n _ => n + 1) 0

/-- Line 208 of `eval.py`: `tf.python_io.tf_record_iterator` yields the records
of the file in sequence and the generator sums 1 per record. -/
def count_records (w : World) (path : String) : Nat :=
  countList (w.records path)

/-- Line 211 of `eval.py`: `max([item.id for item in label_map.item])`
(raises ValueError on an empty label map, handled at the call site). -/
def maxItemId (label_map : LabelMap) : Nat :=
  label_map.item.foldl (fun m it => Nat.max m it.id) 0

/-- Modelled from the spec: `label_map_util.convert_label_map_to_categories`
(in `object_detection/utils/label_map_util.py`, part of the repository but not
under src/) produces a category list covering ids 1..max_num_classes, taking
each name from the label map when present and filling gaps with placeholder
entries. -/
def convert_label_map_to_categories (label_map : LabelMap)
    (max_num_classes : Nat) : List Category :=
  (List.range max_num_classes).map (fun i =>
    match label_map.item.find? (fun it => it.id == i + 1) with
    | some it => { id := i + 1, name := it.name }
    | none => { id := i + 1, name := "category_" ++ toString (i + 1) })

/-- `eval_main` (lines 175–218): default flags from `eval_label`, assert
`checkpoint_dir`, resolve configuration, derive the eval directory, count
records, load the label map, build categories, and call the evaluator. -/
def eval_main (max_number_of_evaluations : Option Nat) (f0 : Flags)
    (w : World) : List Event × Except Failure Flags :=
  let f1 := applyEvalLabelDefault f0
  if f1.checkpoint_dir = "" then
    ([], Except.error (Failure.assertionError "`checkpoint_dir` is missing."))
  else
    let rc := resolveConfigs f1 w
    let input_config := rc.2.2.2
    let dd := derive_eval_dir f1 w
    let f2 := dd.2
    let num_examples := count_records w input_config.input_path
    let label_map := w.labelMapAt input_config.label_map_path
    if label_map.item.isEmpty then
      (rc.1 ++ dd.1 ++ [Event.countRecords input_config.input_path,
        Event.loadLabelMap input_config.label_map_path],
       Except.error (Failure.valueError "max() arg is an empty sequence"))
    else
      let max_num_classes := maxItemId label_map
      let categories := convert_label_map_to_categories label_map max_num_classes
      (rc.1 ++ dd.1 ++ [Event.countRecords input_config.input_path,
        Event.loadLabelMap input_config.label_map_path,
        Event.evaluate f2.checkpoint_dir f2.eval_dir num_examples categories
          max_number_of_evaluations],
       Except.ok f2)

/-- Lines 227–229 of `eval.py`: set `eval_label` to the current label and
clear the `pipeline_config_path` and `checkpoint_dir` flags. -/
def resetForLabel (f : Flags) (label : String) : Flags :=
  { f with eval_label := label, pipeline_config_path := "",
           checkpoint_dir := "" }

/-- One iteration of the multi-run loop body (lines 226–231): set `eval_label`
to the current label, clear `pipeline_config_path` and `checkpoint_dir`, reset
the default graph, and run `eval_main` capped at one evaluation. -/
def runOneLabel (w : World) (f : Flags) (label : String) :
    List Event × Except Failure Flags :=
  let r := eval_main (some 1) (resetForLabel f label) w
  (Event.resetDefaultGraph :: r.1, r.2)

/-- Fold step over the label list; an uncaught exception aborts the loop. -/
def stepLabel (w : World) (acc : List Event × Except Failure Flags)
    (label : String) : List Event × Except Failure Flags :=
  match acc.2 with
  | Except.error e => (acc.1, Except.error e)
  | Except.ok f =>
    let r := runOneLabel w f label
    (acc.1 ++ r.1, r.2)

/-- `main` (lines 220–232): split `eval_label` on commas; with no label or a
single label run `eval_main` once uncapped; otherwise run the loop body once
per label.  The `while True:` around the `for` loop ends in an unconditional
`break` after the first pass, so the whole loop is a single pass over the list. -/
def main (f : Flags) (w : World) : List Event × Except Failure Flags :=
  let eval_label_list := pySplitComma f.eval_label
  if f.eval_label = "" || eval_label_list.length == 1 then
    eval_main none f w
  else
    eval_label_list.foldl (stepLabel w) ([], Except.ok f)

/-- The multi-run semantics spelled out label by label: for each label in list
order exactly once, reset the path flags, reset the default graph, and invoke
`eval_main` with `max_number_of_evaluations = 1`; the recursion is structural
on the label list, hence a single terminating pass. -/
def singlePassRuns (w : World) : List String → Flags →
    List Event × Except Failure Flags
  | [], f => ([], Except.ok f)
  | label :: rest, f =>
    let r := runOneLabel w f label
    match r.2 with
    | Except.error e => (r.1, Except.error e)
    | Except.ok f2 =>
      let r2 := singlePassRuns w rest f2
      (r.1 ++ r2.1, r2.2)

/-- Whether an event is a configuration-file (or any file) open. -/
def isOpenFile : Event → Bool
  | Event.openFile _ => true
  | _ => false

/-- A directory exists after a trace if it existed before or the trace created
it with `mkdir_p`. -/
def dirExistsAfter (w : World) (tr : List Event) (p : String) : Bool :=
  w.dirExists p || decide (Event.mkdirP p ∈ tr)

/-! Concrete inputs used as witnesses. -/

/-- A concrete environment: every config path parses, the data file has one
record, every label map has the single entry id 1. -/
def sampleWorld : World where
  pipelineAt := fun _ =>
    ⟨⟨"m"⟩, ⟨"e"⟩, ⟨"train.record", "train_labels.pbtxt"⟩,
     ⟨"data.record", "labels.pbtxt"⟩⟩
  evalConfigAt := fun _ => ⟨"e"⟩
  modelConfigAt := fun _ => ⟨"m"⟩
  inputConfigAt := fun _ => ⟨"data.record", "labels.pbtxt"⟩
  labelMapAt := fun _ => ⟨[⟨1, "obj"⟩]⟩
  records := fun _ => [7]
  dirExists := fun _ => false
  now := ⟨2020, 1, 2, 3, 4, 5⟩

/-- All flags at their registered defaults. -/
def flags0 : Flags where
  eval_training_data := false
  checkpoint_dir := ""
  eval_dir := ""
  pipeline_config_path := ""
  eval_config_path := ""
  input_config_path := ""
  model_config_path := ""
  eval_tag := ""
  eval_label := ""

/-! Shared helper lemmas. -/

theorem isEmpty_false_of_ne_nil {α : Type} (l : List α) (h : l ≠ []) :
    l.isEmpty = false := by
  cases l <;> simp_all

theorem countList_shift (rs : List Nat) :
    ∀ k : Nat, rs.foldl (fun n _ => n + 1) k = k + rs.length := by
  induction rs with
  | nil => simp
  | cons r rs ih =>
    intro k
    simp only [List.foldl_cons, List.length_cons, ih]
    omega

/-! Theorems for the claims. -/

/-- Claim C3: with `checkpoint_dir` empty and `eval_label` empty, `eval_main`
terminates with the assertion failure before any file I/O: the event trace is
empty, so no configuration file is opened, no directory is created and no
record is counted. -/
theorem c3_assert_before_io (mx : Option Nat) (f : Flags) (w : World)
    (hc : f.checkpoint_dir = "") (hl : f.eval_label = "") :
    eval_main mx f w =
      ([], Except.error (Failure.assertionError "`checkpoint_dir` is missing.")) := by
  simp [eval_main, applyEvalLabelDefault, hl, hc]

/-- Witness for C3 at the default flags. -/
theorem c3_assert_before_io_witness :
    flags0.checkpoint_dir = "" ∧ flags0.eval_label = "" ∧
    eval_main none flags0 sampleWorld =
      ([], Except.error (Failure.assertionError "`checkpoint_dir` is missing.")) :=
  ⟨rfl, rfl, c3_assert_before_io none flags0 sampleWorld rfl rfl⟩

/-- Claim C8: the example count is the number of records of the input data
file: the sequential one-per-record scan (`countList`) equals the record count,
and it is insensitive to the record contents (no deserialization beyond record
boundaries). -/
theorem c8_record_count (w : World) (path : String) (g : Nat → Nat) :
    count_records w path = (w.records path).length ∧
    countList ((w.records path).map g) = countList (w.records path) := by
  constructor
  · simp [count_records, countList, countList_shift]
  · simp [countList, countList_shift]

/-- Claim C9: when `eval_label` is non-empty, `eval_dir` and `eval_tag` are
overwritten unconditionally, while `pipeline_config_path` and `checkpoint_dir`
are defaulted from the label only when they are empty. -/
theorem c9_label_defaulting (f : Flags) (h : f.eval_label ≠ "") :
    (applyEvalLabelDefault f).eval_dir = "../checkpoints/eval/" ++ f.eval_label ∧
    (applyEvalLabelDefault f).eval_tag = f.eval_label ∧
    (applyEvalLabelDefault f).pipeline_config_path =
      (if f.pipeline_config_path = "" then
        "../configs/test/" ++ f.eval_label ++ ".config"
       else f.pipeline_config_path) ∧
    (applyEvalLabelDefault f).checkpoint_dir =
      (if f.checkpoint_dir = "" then "../checkpoints/train/" ++ f.eval_label
       else f.checkpoint_dir) := by
  simp [applyEvalLabelDefault, h]

/-- Flags for the C9 witness: the user supplied every path explicitly. -/
def c9Flags : Flags :=
  { flags0 with eval_label := "lab", eval_dir := "userdir", eval_tag := "usertag",
                pipeline_config_path := "user.config", checkpoint_dir := "userck" }

/-- Witness for C9: explicit user values for `eval_dir` and `eval_tag` are
clobbered, the explicit paths are kept. -/
theorem c9_label_defaulting_witness :
    c9Flags.eval_label ≠ "" ∧ c9Flags.eval_dir = "userdir" ∧
    c9Flags.eval_tag = "usertag" ∧
    (applyEvalLabelDefault c9Flags).eval_dir =
      "../checkpoints/eval/" ++ c9Flags.eval_label ∧
    (applyEvalLabelDefault c9Flags).eval_tag = c9Flags.eval_label :=
  ⟨by decide, rfl, rfl, (c9_label_defaulting c9Flags (by decide)).1,
   (c9_label_defaulting c9Flags (by decide)).2.1⟩

theorem resolveConfigs_trace (f : Flags) (w : World) :
    (resolveConfigs f w).1.filter isOpenFile = (resolveConfigs f w).1 ∧
    Event.resetDefaultGraph ∉ (resolveConfigs f w).1 ∧
    ∀ p, Event.mkdirP p ∉ (resolveConfigs f w).1 := by
  unfold resolveConfigs
  split
  · simp [get_configs_from_pipeline_file, isOpenFile]
  split
  · simp [get_configs_from_multiple_files, isOpenFile]
  · simp [get_configs_from_checkpoint_dir, isOpenFile]

theorem derive_eval_dir_trace (f : Flags) (w : World) :
    (derive_eval_dir f w).1.filter isOpenFile = [] ∧
    Event.resetDefaultGraph ∉ (derive_eval_dir f w).1 := by
  unfold derive_eval_dir
  split <;> simp [isOpenFile]

theorem eval_main_trace_split (mx : Option Nat) (f : Flags) (w : World)
    (hc : (applyEvalLabelDefault f).checkpoint_dir ≠ "") :
    ∃ tail : List Event,
      (eval_main mx f w).1 =
        (resolveConfigs (applyEvalLabelDefault f) w).1 ++
          ((derive_eval_dir (applyEvalLabelDefault f) w).1 ++ tail) ∧
      tail.filter isOpenFile = [] ∧
      Event.resetDefaultGraph ∉ tail ∧
      ∀ p, Event.mkdirP p ∉ tail := by
  unfold eval_main
  rw [if_neg hc]
  dsimp only
  split
  · exact ⟨_, by rw [List.append_assoc], by simp [isOpenFile], by simp,
      fun p => by simp⟩
  · exact ⟨_, by rw [List.append_assoc], by simp [isOpenFile], by simp,
      fun p => by simp⟩

/-- Claim C1: after the `eval_label` defaulting, strategy selection follows the
fixed exclusive precedence pipeline-file, then three-files, then
checkpoint-directory, and a run of `eval_main` that passes the precondition
performs exactly the resolution of the selected strategy (its trace begins with
the file reads of that strategy). -/
theorem c1_strategy_selection (mx : Option Nat) (f0 : Flags) (w : World)
    (h : (applyEvalLabelDefault f0).checkpoint_dir ≠ "") :
    ((applyEvalLabelDefault f0).pipeline_config_path ≠ "" →
      strategyOf (applyEvalLabelDefault f0) = Strategy.pipelineFile ∧
      resolveConfigs (applyEvalLabelDefault f0) w =
        get_configs_from_pipeline_file (applyEvalLabelDefault f0) w) ∧
    ((applyEvalLabelDefault f0).pipeline_config_path = "" →
      (applyEvalLabelDefault f0).eval_config_path ≠ "" →
      strategyOf (applyEvalLabelDefault f0) = Strategy.multipleFiles ∧
      resolveConfigs (applyEvalLabelDefault f0) w =
        get_configs_from_multiple_files (applyEvalLabelDefault f0) w) ∧
    ((applyEvalLabelDefault f0).pipeline_config_path = "" →
      (applyEvalLabelDefault f0).eval_config_path = "" →
      strategyOf (applyEvalLabelDefault f0) = Strategy.checkpointDir ∧
      resolveConfigs (applyEvalLabelDefault f0) w =
        get_configs_from_checkpoint_dir (applyEvalLabelDefault f0) w) ∧
    ∃ rest, (eval_main mx f0 w).1 =
      (resolveConfigs (applyEvalLabelDefault f0) w).1 ++ rest := by
  refine ⟨fun hp => ⟨by simp [strategyOf, hp], by simp [resolveConfigs, hp]⟩,
    fun hp he => ⟨by simp [strategyOf, hp, he], by simp [resolveConfigs, hp, he]⟩,
    fun hp he => ⟨by simp [strategyOf, hp, he], by simp [resolveConfigs, hp, he]⟩, ?_⟩
  obtain ⟨tail, htr, -, -, -⟩ := eval_main_trace_split mx f0 w h
  exact ⟨_, htr⟩

/-- Flags for the C1 witness: a pipeline path is set together with the other
path flags, so Strategy A wins. -/
def c1Flags : Flags :=
  { flags0 with pipeline_config_path := "p.config", eval_config_path := "e.config",
                model_config_path := "m.config", input_config_path := "i.config",
                checkpoint_dir := "ck" }

/-- Witness for C1: with both a pipeline path and a three-file configuration
set, the pipeline strategy is selected. -/
theorem c1_strategy_selection_witness :
    (applyEvalLabelDefault c1Flags).checkpoint_dir ≠ "" ∧
    (applyEvalLabelDefault c1Flags).pipeline_config_path ≠ "" ∧
    (applyEvalLabelDefault c1Flags).eval_config_path ≠ "" ∧
    strategyOf (applyEvalLabelDefault c1Flags) = Strategy.pipelineFile ∧
    resolveConfigs (applyEvalLabelDefault c1Flags) sampleWorld =
      get_configs_from_pipeline_file (applyEvalLabelDefault c1Flags) sampleWorld :=
  ⟨by decide, by decide, by decide,
   ((c1_strategy_selection none c1Flags sampleWorld (by decide)).1 (by decide)).1,
   ((c1_strategy_selection none c1Flags sampleWorld (by decide)).1 (by decide)).2⟩

/-- Claim C4: with `eval_label` empty, `eval_dir` empty and a non-empty
`eval_tag`, the derived output directory is exactly
`checkpoint_dir ++ "_eval_" ++ eval_tag`; `eval_main` creates it with
`mkdir_p`, its result does not depend on whether the directory already exists,
and it does not depend on the clock (no timestamp component). -/
theorem c4_tagged_eval_dir (mx : Option Nat) (f : Flags) (w : World)
    (hl : f.eval_label = "") (hd : f.eval_dir = "") (ht : f.eval_tag ≠ "")
    (hc : f.checkpoint_dir ≠ "") :
    (derive_eval_dir f w).2.eval_dir = f.checkpoint_dir ++ "_eval_" ++ f.eval_tag ∧
    (derive_eval_dir f w).2.eval_tag = f.eval_tag ∧
    Event.mkdirP (f.checkpoint_dir ++ "_eval_" ++ f.eval_tag) ∈ (eval_main mx f w).1 ∧
    (∀ d, eval_main mx f { w with dirExists := d } = eval_main mx f w) ∧
    (∀ t, eval_main mx f { w with now := t } = eval_main mx f w) := by
  have hfix : applyEvalLabelDefault f = f := by
    simp [applyEvalLabelDefault, hl]
  refine ⟨by simp [derive_eval_dir, hd, ht, mkdir_p],
          by simp [derive_eval_dir, hd, ht],
          ?_, fun d => rfl, ?_⟩
  · obtain ⟨tail, htr, -, -, -⟩ :=
      eval_main_trace_split mx f w (by rw [hfix]; exact hc)
    rw [hfix] at htr
    have hdd : (derive_eval_dir f w).1 =
        [Event.mkdirP (f.checkpoint_dir ++ "_eval_" ++ f.eval_tag)] := by
      simp [derive_eval_dir, hd, ht]
    rw [htr, hdd]
    simp
  · intro t
    have h1 : derive_eval_dir f { w with now := t } = derive_eval_dir f w := by
      simp [derive_eval_dir, hd, ht]
    unfold eval_main
    rw [hfix]
    simp only [h1]
    rfl

/-- Flags for the C4 witness. -/
def c4Flags : Flags :=
  { flags0 with checkpoint_dir := "ck", eval_tag := "run1" }

/-- Witness for C4: tag `run1` yields directory `ck_eval_run1`. -/
theorem c4_tagged_eval_dir_witness :
    c4Flags.eval_label = "" ∧ c4Flags.eval_dir = "" ∧ c4Flags.eval_tag ≠ "" ∧
    c4Flags.checkpoint_dir ≠ "" ∧
    (derive_eval_dir c4Flags sampleWorld).2.eval_dir =
      c4Flags.checkpoint_dir ++ "_eval_" ++ c4Flags.eval_tag ∧
    c4Flags.checkpoint_dir ++ "_eval_" ++ c4Flags.eval_tag = "ck_eval_run1" ∧
    Event.mkdirP (c4Flags.checkpoint_dir ++ "_eval_" ++ c4Flags.eval_tag) ∈
      (eval_main none c4Flags sampleWorld).1 :=
  ⟨rfl, rfl, by decide, by decide,
   (c4_tagged_eval_dir none c4Flags sampleWorld rfl rfl (by decide) (by decide)).1,
   by decide,
   (c4_tagged_eval_dir none c4Flags sampleWorld rfl rfl (by decide) (by decide)).2.2.1⟩

/-- Claim C6: under Strategy C (no pipeline path, no eval-config path, no
label), the configuration files opened by `eval_main` are exactly the
checkpoint directory joined with `eval.config`, `model.config`, and
`train_input.config` or `eval_input.config` according to `eval_training_data`,
for every checkpoint directory and flag value. -/
theorem c6_checkpoint_dir_paths (mx : Option Nat) (f : Flags) (w : World)
    (hl : f.eval_label = "") (hp : f.pipeline_config_path = "")
    (he : f.eval_config_path = "") (hc : f.checkpoint_dir ≠ "") :
    (eval_main mx f w).1.filter isOpenFile =
      [Event.openFile (osPathJoin f.checkpoint_dir "eval.config"),
       Event.openFile (osPathJoin f.checkpoint_dir "model.config"),
       Event.openFile (if f.eval_training_data then
         osPathJoin f.checkpoint_dir "train_input.config"
        else osPathJoin f.checkpoint_dir "eval_input.config")] := by
  have hfix : applyEvalLabelDefault f = f := by
    simp [applyEvalLabelDefault, hl]
  have hrc : resolveConfigs f w = get_configs_from_checkpoint_dir f w := by
    simp [resolveConfigs, hp, he]
  obtain ⟨tail, htr, hof, -, -⟩ :=
    eval_main_trace_split mx f w (by rw [hfix]; exact hc)
  rw [hfix] at htr
  rw [htr, List.filter_append, List.filter_append,
    (derive_eval_dir_trace f w).1, hof, hrc]
  simp [get_configs_from_checkpoint_dir, isOpenFile]

/-- Flags for the C6 witness. -/
def c6Flags : Flags :=
  { flags0 with checkpoint_dir := "ck" }

/-- Witness for C6 at a concrete checkpoint directory. -/
theorem c6_checkpoint_dir_paths_witness :
    c6Flags.eval_label = "" ∧ c6Flags.pipeline_config_path = "" ∧
    c6Flags.eval_config_path = "" ∧ c6Flags.checkpoint_dir ≠ "" ∧
    (eval_main none c6Flags sampleWorld).1.filter isOpenFile =
      [Event.openFile (osPathJoin c6Flags.checkpoint_dir "eval.config"),
       Event.openFile (osPathJoin c6Flags.checkpoint_dir "model.config"),
       Event.openFile (if c6Flags.eval_training_data then
         osPathJoin c6Flags.checkpoint_dir "train_input.config"
        else osPathJoin c6Flags.checkpoint_dir "eval_input.config")] :=
  ⟨rfl, rfl, rfl, by decide,
   c6_checkpoint_dir_paths none c6Flags sampleWorld rfl rfl rfl (by decide)⟩

theorem foldl_max_bounds (l : List Nat) : ∀ a : Nat,
    (∀ x ∈ l, x ≤ l.foldl Nat.max a) ∧ a ≤ l.foldl Nat.max a ∧
    (l.foldl Nat.max a = a ∨ l.foldl Nat.max a ∈ l) := by
  induction l with
  | nil => intro a; simp
  | cons b l ih =>
    intro a
    obtain ⟨h1, h2, h3⟩ := ih (Nat.max a b)
    rw [List.foldl_cons]
    refine ⟨?_, le_trans (Nat.le_max_left a b) h2, ?_⟩
    · intro x hx
      rcases List.mem_cons.mp hx with rfl | hx
      · exact le_trans (Nat.le_max_right a x) h2
      · exact h1 x hx
    · rcases h3 with h | h
      · rcases Nat.le_total a b with hab | hab
        · right
          have hm : a.max b = b := Nat.max_eq_right hab
          rw [h, hm]
          exact List.mem_cons_self b l
        · left
          rw [h]
          exact Nat.max_eq_left hab
      · right; exact List.mem_cons_of_mem b h

theorem maxItemId_spec (label_map : LabelMap) (h : label_map.item ≠ []) :
    (∃ it ∈ label_map.item, it.id = maxItemId label_map) ∧
    ∀ it ∈ label_map.item, it.id ≤ maxItemId label_map := by
  have hm : maxItemId label_map =
      (label_map.item.map LabelMapItem.id).foldl Nat.max 0 := by
    simp [maxItemId, List.foldl_map]
  obtain ⟨h1, -, h3⟩ :=
    foldl_max_bounds (label_map.item.map LabelMapItem.id) 0
  constructor
  · rcases h3 with h0 | hmem
    · obtain ⟨it0, rest, hcons⟩ := List.exists_cons_of_ne_nil h
      refine ⟨it0, by rw [hcons]; exact List.mem_cons_self it0 rest, ?_⟩
      have hle : it0.id ≤ (label_map.item.map LabelMapItem.id).foldl Nat.max 0 :=
        h1 it0.id (List.mem_map_of_mem LabelMapItem.id
          (by rw [hcons]; exact List.mem_cons_self it0 rest))
      rw [hm, h0]
      rw [h0] at hle
      omega
    · obtain ⟨it, hit, hid⟩ := List.mem_map.mp hmem
      exact ⟨it, hit, by rw [hm, hid]⟩
  · intro it hit
    rw [hm]
    exact h1 it.id (List.mem_map_of_mem LabelMapItem.id hit)

/-- Claim C7: for a non-empty label map, the category list built from the
maximum id covers class ids 1 through that maximum (its length equals the
maximum), and the maximum is the largest id occurring in the map. -/
theorem c7_categories_cover (label_map : LabelMap) (h : label_map.item ≠ []) :
    (convert_label_map_to_categories label_map (maxItemId label_map)).length
        = maxItemId label_map ∧
    (convert_label_map_to_categories label_map (maxItemId label_map)).map
        Category.id = (List.range (maxItemId label_map)).map (fun i => i + 1) ∧
    (∃ it ∈ label_map.item, it.id = maxItemId label_map) ∧
    (∀ it ∈ label_map.item, it.id ≤ maxItemId label_map) := by
  refine ⟨by simp [convert_label_map_to_categories], ?_,
    (maxItemId_spec label_map h).1, (maxItemId_spec label_map h).2⟩
  unfold convert_label_map_to_categories
  rw [List.map_map]
  apply List.map_congr_left
  intro i _
  cases hf : label_map.item.find? (fun it => it.id == i + 1) <;>
    simp [Function.comp, hf]

/-- A label map with ids 1, 2 and 5, per the spec example. -/
def lm7 : LabelMap := ⟨[⟨1, "cat"⟩, ⟨2, "dog"⟩, ⟨5, "bird"⟩]⟩

/-- Witness for C7: ids 1, 2, 5 give a category list covering ids 1..5. -/
theorem c7_categories_cover_witness :
    lm7.item ≠ [] ∧ maxItemId lm7 = 5 ∧
    (convert_label_map_to_categories lm7 (maxItemId lm7)).length = maxItemId lm7 ∧
    (convert_label_map_to_categories lm7 (maxItemId lm7)).map Category.id =
      (List.range (maxItemId lm7)).map (fun i => i + 1) :=
  ⟨by decide, by decide, (c7_categories_cover lm7 (by decide)).1,
   (c7_categories_cover lm7 (by decide)).2.1⟩

theorem eval_main_no_reset (mx : Option Nat) (f : Flags) (w : World) :
    Event.resetDefaultGraph ∉ (eval_main mx f w).1 := by
  by_cases hc : (applyEvalLabelDefault f).checkpoint_dir = ""
  · unfold eval_main
    dsimp only
    rw [if_pos hc]
    simp
  · obtain ⟨tail, htr, -, hres, -⟩ := eval_main_trace_split mx f w hc
    rw [htr]
    intro hmem
    rcases List.mem_append.mp hmem with h | h
    · exact (resolveConfigs_trace _ w).2.1 h
    rcases List.mem_append.mp h with h | h
    · exact (derive_eval_dir_trace _ w).2 h
    · exact hres h

theorem foldl_stepLabel_error (w : World) (ls : List String) (tr : List Event)
    (e : Failure) :
    ls.foldl (stepLabel w) (tr, Except.error e) = (tr, Except.error e) := by
  induction ls with
  | nil => rfl
  | cons l ls ih => simpa [stepLabel] using ih

theorem foldl_stepLabel_ok (w : World) (ls : List String) :
    ∀ (tr : List Event) (f : Flags),
    ls.foldl (stepLabel w) (tr, Except.ok f) =
      (tr ++ (singlePassRuns w ls f).1, (singlePassRuns w ls f).2) := by
  induction ls with
  | nil => intro tr f; simp [singlePassRuns]
  | cons l ls ih =>
    intro tr f
    simp only [List.foldl_cons]
    have hstep : stepLabel w (tr, Except.ok f) l =
        (tr ++ (runOneLabel w f l).1, (runOneLabel w f l).2) := rfl
    rw [hstep]
    cases hr : (runOneLabel w f l).2 with
    | error e =>
      rw [foldl_stepLabel_error]
      simp [singlePassRuns, hr]
    | ok f2 =>
      rw [ih]
      simp [singlePassRuns, hr, List.append_assoc]

theorem singlePassRuns_count (w : World) (ls : List String) :
    ∀ f f2 : Flags, (singlePassRuns w ls f).2 = Except.ok f2 →
    (singlePassRuns w ls f).1.count Event.resetDefaultGraph = ls.length := by
  induction ls with
  | nil => intro f f2 _; rfl
  | cons l ls ih =>
    intro f f2 h
    cases hr : (runOneLabel w f l).2 with
    | error e =>
      have hspr : singlePassRuns w (l :: ls) f =
          ((runOneLabel w f l).1, Except.error e) := by
        simp [singlePassRuns, hr]
      rw [hspr] at h
      simp at h
    | ok fmid =>
      have hspr : singlePassRuns w (l :: ls) f =
          ((runOneLabel w f l).1 ++ (singlePassRuns w ls fmid).1,
           (singlePassRuns w ls fmid).2) := by
        simp [singlePassRuns, hr]
      rw [hspr] at h ⊢
      have h1 : (runOneLabel w f l).1.count Event.resetDefaultGraph = 1 := by
        show (Event.resetDefaultGraph ::
          (eval_main (some 1) _ w).1).count Event.resetDefaultGraph = 1
        rw [List.count_cons_self,
          List.count_eq_zero.mpr (eval_main_no_reset (some 1) _ w)]
      rw [List.count_append, h1, ih fmid f2 h]
      simp [Nat.add_comm]

/-- Claim C2: when the label flag splits into more than one element, `main`
runs the loop body once per label in list order — resetting the path flags,
resetting the default graph, and invoking `eval_main` capped at one evaluation
— and a completed run performs exactly one graph reset per label (a single
pass, not a repeating poll loop). -/
theorem c2_multi_label_single_pass (f : Flags) (w : World)
    (h : 1 < (pySplitComma f.eval_label).length) :
    main f w = singlePassRuns w (pySplitComma f.eval_label) f ∧
    (∀ f2, (main f w).2 = Except.ok f2 →
      (main f w).1.count Event.resetDefaultGraph =
        (pySplitComma f.eval_label).length) := by
  have hne : f.eval_label ≠ "" := by
    intro h0
    rw [h0] at h
    revert h
    decide
  have hcond : ¬((decide (f.eval_label = "") ||
      ((pySplitComma f.eval_label).length == 1)) = true) := by
    simp [hne]
    omega
  have hmain : main f w = singlePassRuns w (pySplitComma f.eval_label) f := by
    unfold main
    dsimp only
    rw [if_neg hcond, foldl_stepLabel_ok]
    simp
  refine ⟨hmain, fun f2 h2 => ?_⟩
  rw [hmain] at h2 ⊢
  exact singlePassRuns_count w _ f f2 h2

/-- Flags for the C2 witness: two labels. -/
def c2Flags : Flags := { flags0 with eval_label := "a,b" }

/-- Witness for C2 on the label list `a,b`. -/
theorem c2_multi_label_single_pass_witness :
    1 < (pySplitComma c2Flags.eval_label).length ∧
    main c2Flags sampleWorld =
      singlePassRuns sampleWorld (pySplitComma c2Flags.eval_label) c2Flags :=
  ⟨by decide, (c2_multi_label_single_pass c2Flags sampleWorld (by decide)).1⟩

/-- Flags for the C5 counterexample: `eval_dir` and `eval_tag` are both empty,
but a non-empty `eval_label` is supplied. -/
def c5Flags : Flags :=
  { flags0 with eval_label := "a", checkpoint_dir := "ck" }

/-- The flag state produced by running `eval_main` on `c5Flags`. -/
def c5RunFlags : Flags :=
  { flags0 with eval_label := "a", checkpoint_dir := "ck",
                pipeline_config_path := "../configs/test/a.config",
                eval_dir := "../checkpoints/eval/a", eval_tag := "a" }

/-- Counterexample to C5 as stated: with `eval_dir` and `eval_tag` both empty
but `eval_label` non-empty, no timestamp tag is synthesized (the tag becomes
the label), the output directory is not `checkpoint_dir ++ "_eval_" ++
timestamp`, and no directory is created at that composed path. -/
theorem c5_counterexample :
    c5Flags.eval_dir = "" ∧ c5Flags.eval_tag = "" ∧
    (eval_main none c5Flags sampleWorld).2 = Except.ok c5RunFlags ∧
    c5RunFlags.eval_tag ≠ strftimeTag sampleWorld.now ∧
    c5RunFlags.eval_dir ≠
      c5Flags.checkpoint_dir ++ "_eval_" ++ strftimeTag sampleWorld.now ∧
    dirExistsAfter sampleWorld (eval_main none c5Flags sampleWorld).1
      (c5Flags.checkpoint_dir ++ "_eval_" ++ strftimeTag sampleWorld.now)
      = false := by
  refine ⟨rfl, rfl, rfl, by decide, by decide, by decide⟩

/-- Claim C5 as amended: for every invocation of `eval_main` where `eval_dir`,
`eval_tag` and `eval_label` are all empty (and `checkpoint_dir` is non-empty so
the precondition holds), the run tag becomes the wall-clock timestamp, the
output directory is `checkpoint_dir ++ "_eval_" ++ timestamp`, it is created,
and it exists after the run. -/
theorem c5_amended_timestamp_dir (mx : Option Nat) (f : Flags) (w : World)
    (hl : f.eval_label = "") (hd : f.eval_dir = "") (ht : f.eval_tag = "")
    (hc : f.checkpoint_dir ≠ "") :
    (derive_eval_dir f w).2.eval_tag = strftimeTag w.now ∧
    (derive_eval_dir f w).2.eval_dir =
      f.checkpoint_dir ++ "_eval_" ++ strftimeTag w.now ∧
    Event.mkdirP (f.checkpoint_dir ++ "_eval_" ++ strftimeTag w.now) ∈
      (eval_main mx f w).1 ∧
    dirExistsAfter w (eval_main mx f w).1
      (f.checkpoint_dir ++ "_eval_" ++ strftimeTag w.now) = true := by
  have hfix : applyEvalLabelDefault f = f := by
    simp [applyEvalLabelDefault, hl]
  have hmem : Event.mkdirP (f.checkpoint_dir ++ "_eval_" ++ strftimeTag w.now) ∈
      (eval_main mx f w).1 := by
    obtain ⟨tail, htr, -, -, -⟩ :=
      eval_main_trace_split mx f w (by rw [hfix]; exact hc)
    rw [hfix] at htr
    have hdd : (derive_eval_dir f w).1 =
        [Event.mkdirP (f.checkpoint_dir ++ "_eval_" ++ strftimeTag w.now)] := by
      simp [derive_eval_dir, hd, ht]
    rw [htr, hdd]
    simp
  refine ⟨by simp [derive_eval_dir, hd, ht],
          by simp [derive_eval_dir, hd, ht, mkdir_p], hmem, ?_⟩
  simp [dirExistsAfter, hmem]

/-- Flags for the C5 amended-claim witness, per the spec example. -/
def c5aFlags : Flags := { flags0 with checkpoint_dir := "/tmp/ckpt" }

/-- Witness for the amended C5: `/tmp/ckpt` yields
`/tmp/ckpt_eval_20200102-030405` under the sample clock. -/
theorem c5_amended_timestamp_dir_witness :
    c5aFlags.eval_label = "" ∧ c5aFlags.eval_dir = "" ∧ c5aFlags.eval_tag = "" ∧
    c5aFlags.checkpoint_dir ≠ "" ∧
    (derive_eval_dir c5aFlags sampleWorld).2.eval_dir =
      c5aFlags.checkpoint_dir ++ "_eval_" ++ strftimeTag sampleWorld.now ∧
    c5aFlags.checkpoint_dir ++ "_eval_" ++ strftimeTag sampleWorld.now =
      "/tmp/ckpt_eval_20200102-030405" ∧
    dirExistsAfter sampleWorld (eval_main none c5aFlags sampleWorld).1
      (c5aFlags.checkpoint_dir ++ "_eval_" ++ strftimeTag sampleWorld.now)
      = true :=
  ⟨rfl, rfl, rfl, by decide,
   (c5_amended_timestamp_dir none c5aFlags sampleWorld rfl rfl rfl (by decide)).2.1,
   by decide,
   (c5_amended_timestamp_dir none c5aFlags sampleWorld rfl rfl rfl (by decide)).2.2.2⟩

theorem eval_main_assert (mx : Option Nat) (f : Flags) (w : World)
    (hc : f.checkpoint_dir = "") (hl : f.eval_label = "") :
    eval_main mx f w =
      ([], Except.error (Failure.assertionError "`checkpoint_dir` is missing.")) := by
  simp [eval_main, applyEvalLabelDefault, hl, hc]

theorem applyEvalLabelDefault_of_ne (f : Flags) (h : f.eval_label ≠ "") :
    applyEvalLabelDefault f =
      { f with
        pipeline_config_path :=
          if f.pipeline_config_path = "" then
            "../configs/test/" ++ f.eval_label ++ ".config"
          else f.pipeline_config_path,
        checkpoint_dir :=
          if f.checkpoint_dir = "" then "../checkpoints/train/" ++ f.eval_label
          else f.checkpoint_dir,
        eval_dir := "../checkpoints/eval/" ++ f.eval_label,
        eval_tag := f.eval_label } := by
  simp [applyEvalLabelDefault, h]

/-- Claim C10: with `eval_label = "a,"` (a trailing comma producing an empty
element), `main` enters the multi-run path, completes the run for label `a`
(the first dispatch succeeds), and then aborts with the missing-checkpoint
assertion on the empty element, whose iteration contributed only the graph
reset: `checkpoint_dir` was cleared and the empty label skips the defaulting. -/
theorem c10_trailing_comma_abort (f : Flags) (w : World)
    (hl : f.eval_label = "a,")
    (hlm : ∀ p, (w.labelMapAt p).item ≠ []) :
    (main f w).2 =
      Except.error (Failure.assertionError "`checkpoint_dir` is missing.") ∧
    (∃ f2, (eval_main (some 1) (resetForLabel f "a") w).2 = Except.ok f2) ∧
    (main f w).1 = Event.resetDefaultGraph ::
      ((eval_main (some 1) (resetForLabel f "a") w).1 ++
       [Event.resetDefaultGraph]) := by
  have hsplit : pySplitComma f.eval_label = ["a", ""] := by
    rw [hl]
    decide
  have hcond : ¬((decide (f.eval_label = "") ||
      ((pySplitComma f.eval_label).length == 1)) = true) := by
    rw [hl]
    decide
  have hlab : (resetForLabel f "a").eval_label = "a" := rfl
  have hcd :
      (applyEvalLabelDefault (resetForLabel f "a")).checkpoint_dir ≠ "" := by
    have h1 : (applyEvalLabelDefault (resetForLabel f "a")).checkpoint_dir =
        "../checkpoints/train/" ++ "a" := by
      rw [applyEvalLabelDefault_of_ne _ (by rw [hlab]; decide)]
      rfl
    rw [h1]
    decide
  have hemp : ∀ p, (w.labelMapAt p).item.isEmpty = false := fun p =>
    isEmpty_false_of_ne_nil _ (hlm p)
  have hok : (eval_main (some 1) (resetForLabel f "a") w).2 =
      Except.ok
        (derive_eval_dir (applyEvalLabelDefault (resetForLabel f "a")) w).2 := by
    unfold eval_main
    dsimp only
    rw [if_neg hcd]
    rw [if_neg (by simp [hemp])]
  have hr2 : runOneLabel w
      (derive_eval_dir (applyEvalLabelDefault (resetForLabel f "a")) w).2 "" =
      ([Event.resetDefaultGraph],
       Except.error (Failure.assertionError "`checkpoint_dir` is missing.")) := by
    unfold runOneLabel
    dsimp only
    rw [eval_main_assert (some 1) _ w rfl rfl]
  have hmain : main f w =
      (Event.resetDefaultGraph ::
        ((eval_main (some 1) (resetForLabel f "a") w).1 ++
         [Event.resetDefaultGraph]),
       Except.error (Failure.assertionError "`checkpoint_dir` is missing.")) := by
    unfold main
    dsimp only
    rw [if_neg hcond, hsplit]
    simp only [List.foldl_cons, List.foldl_nil]
    have hs1 : stepLabel w ([], Except.ok f) "a" =
        (Event.resetDefaultGraph ::
           (eval_main (some 1) (resetForLabel f "a") w).1,
         (eval_main (some 1) (resetForLabel f "a") w).2) := by
      simp [stepLabel, runOneLabel]
    rw [hs1, hok]
    have hs2 : stepLabel w
        (Event.resetDefaultGraph ::
           (eval_main (some 1) (resetForLabel f "a") w).1,
         Except.ok
           (derive_eval_dir (applyEvalLabelDefault (resetForLabel f "a")) w).2)
        "" =
        ((Event.resetDefaultGraph ::
            (eval_main (some 1) (resetForLabel f "a") w).1) ++
          (runOneLabel w (derive_eval_dir
            (applyEvalLabelDefault (resetForLabel f "a")) w).2 "").1,
         (runOneLabel w (derive_eval_dir
            (applyEvalLabelDefault (resetForLabel f "a")) w).2 "").2) := rfl
    rw [hs2, hr2]
    simp
  exact ⟨by rw [hmain], ⟨_, hok⟩, by rw [hmain]⟩

/-- Flags for the C10 witness: a trailing comma in the label list. -/
def c10Flags : Flags := { flags0 with eval_label := "a," }

/-- Witness for C10 on `eval_label = "a,"` in the sample environment. -/
theorem c10_trailing_comma_abort_witness :
    c10Flags.eval_label = "a," ∧
    (sampleWorld.labelMapAt "labels.pbtxt").item ≠ [] ∧
    (main c10Flags sampleWorld).2 =
      Except.error (Failure.assertionError "`checkpoint_dir` is missing.") :=
  ⟨rfl, by decide,
   (c10_trailing_comma_abort c10Flags sampleWorld rfl
     (fun p => by simp [sampleWorld])).1⟩

end MtlSslEval
